import Mathlib

/-!
Verification development for the `exchange_platform` statistics scripts
(`fsada_stats_ai_studio.py` and `fsada_stats_openai.py`).

The Python sources are shallowly embedded below: the SQLite table is a list of
rows, the fixed aggregate queries become pure list functions, the Python dict
used for error aggregation becomes an association list with dict insertion
semantics, Python `sorted(…, key=count, reverse=True)` (a stable sort) becomes
a stable descending insertion sort, and the worksheet XML manipulated by
`export_stats_to_excel` becomes an explicit tree type.
-/

set_option maxRecDepth 8000

namespace FsadaStats

/-! # Definitions

### Error-message normalization (both scripts, lines 14-19 and 128-138) -/

/-- Characters of the fixed literal head of the regex `ERROR_PATTERN`,
everything before the `.*` wildcard. -/
def ERROR_PATTERN_head : List Char := "The specified file ".data

/-- Characters of the fixed literal tail of the regex `ERROR_PATTERN`,
everything after the `.*` wildcard (with `\.` denoting a literal dot). -/
def ERROR_PATTERN_tail : List Char :=
  " does not exists or is not readable.: Invalid file".data

/-- The constant `NORMALIZED_ERROR_MESSAGE` from both scripts: the canonical
placeholder bucket key. -/
def NORMALIZED_ERROR_MESSAGE : String :=
  "The specified file \x7b\x7bfile_full_path\x7d\x7d does not exists or is not readable.: Invalid file"

/-- Matching engine for the part of `ERROR_PATTERN` after the literal head:
`.*` (any characters except newline, since `re.DOTALL` is not set) followed by
the literal tail; anything may follow, because `re.match` only anchors at the
start of the string. Returns true iff the regex tail matches a prefix of `l`. -/
def reMatchTail : List Char → Bool
  | [] => false
  | c :: rest =>
    List.isPrefixOf ERROR_PATTERN_tail (c :: rest) || (c != '\n' && reMatchTail rest)

/-- `re.match(ERROR_PATTERN, message)` truthiness: the regex must match at the
start of the string (trailing characters are permitted by `re.match`). -/
def re_match_ERROR_PATTERN (s : String) : Bool :=
  List.isPrefixOf ERROR_PATTERN_head s.data &&
    reMatchTail (s.data.drop ERROR_PATTERN_head.length)

/-- The normalization step from `get_stats` (lines 131-134 in both scripts):
a message matching `ERROR_PATTERN` is replaced by `NORMALIZED_ERROR_MESSAGE`;
any other message is kept unchanged. -/
def normalize_error_message (message : String) : String :=
  if re_match_ERROR_PATTERN message then NORMALIZED_ERROR_MESSAGE else message

/-- Declarative shape of a string the code's matcher accepts: the fixed head,
then an arbitrary newline-free path portion, then the fixed tail, then an
arbitrary suffix (allowed because `re.match` does not anchor at the end). -/
def MatchesShape (s : String) : Prop :=
  ∃ mid suffix : List Char,
    (∀ c ∈ mid, c ≠ '\n') ∧
    s.data = ERROR_PATTERN_head ++ mid ++ ERROR_PATTERN_tail ++ suffix

/-- Modelled from the spec: the "exact missing-file shape" of claim C4, i.e.
the fixed head, an arbitrary newline-free path portion, and the fixed tail
ending the string (no trailing characters). Decides whether the rest of the
string is `path ++ tail` exactly. -/
def spec_exactShapeTail : List Char → Bool
  | [] => false
  | c :: rest =>
    ((c :: rest) == ERROR_PATTERN_tail) || (c != '\n' && spec_exactShapeTail rest)

/-- Modelled from the spec: a string is of the exact missing-file shape iff it
is precisely head ++ path ++ tail with a newline-free path and nothing after
the tail. -/
def spec_exactMissingFileShape (s : String) : Bool :=
  List.isPrefixOf ERROR_PATTERN_head s.data &&
    spec_exactShapeTail (s.data.drop ERROR_PATTERN_head.length)

/-! ### SQLite table model and the statistics engine `SQLiteAnalyzer.get_stats`
(lines 66-155 of `fsada_stats_ai_studio.py`, lines 67-156 of
`fsada_stats_openai.py`) -/

/-- One row of the `TBL_FSADA` table: the three columns the fixed queries
touch. `none` models SQL NULL. -/
structure DBRow where
  is_done : Option Int
  cmx_document_id : Option String
  error_message : Option String
deriving DecidableEq

/-- SQLite `TRIM(x)`: removes leading and trailing space characters (U+0020
only, SQLite's default trim set). -/
def sqliteTrim (s : String) : String :=
  String.mk (((s.data.dropWhile (· == ' ')).reverse.dropWhile (· == ' ')).reverse)

/-- Predicate of query 2: `is_done = 1` (NULL compares to nothing). -/
def isDone1Row (r : DBRow) : Bool := r.is_done == some 1

/-- Predicate of query 4: `is_done = 0`. -/
def isDone0Row (r : DBRow) : Bool := r.is_done == some 0

/-- Predicate of query 3: `cmx_document_id IS NOT NULL AND
TRIM(cmx_document_id) <> ''`. -/
def cmxNotEmptyRow (r : DBRow) : Bool :=
  match r.cmx_document_id with
  | none => false
  | some s => !(sqliteTrim s == "")

/-- Predicate shared by queries 5 and 6: `is_done = 0 AND error_message IS NOT
NULL AND TRIM(error_message) <> ''`. -/
def errRow (r : DBRow) : Bool :=
  isDone0Row r &&
    (match r.error_message with
     | none => false
     | some s => !(sqliteTrim s == ""))

/-- Query 6: the raw `error_message` strings of the rows satisfying `errRow`,
with the `row[0] if row and row[0] is not None else ""` guard of the loop. -/
def error_messages_raw (t : List DBRow) : List String :=
  (t.filter errRow).map (fun r => r.error_message.getD "")

/-- Python dict update `d[k] = d.get(k, 0) + 1`: an existing key keeps its
position and is incremented; a new key is appended with count 1. -/
def dict_incr : List (String × Nat) → String → List (String × Nat)
  | [], k => [(k, 1)]
  | (k2, v) :: rest, k =>
    if k2 == k then (k2, v + 1) :: rest else (k2, v) :: dict_incr rest k

/-- The normalization-and-aggregation loop of `get_stats` (lines 128-139):
each raw message is normalized and counted into the breakdown dict. -/
def aggregate_error_messages (msgs : List String) : List (String × Nat) :=
  msgs.foldl (fun acc m => dict_incr acc (normalize_error_message m)) []

/-- `os.path.basename` for POSIX paths: everything after the last slash. -/
def os_path_basename (p : String) : String :=
  String.mk ((p.data.reverse.takeWhile (· != '/')).reverse)

/-- The dictionary returned by `get_stats` in both scripts (its immutable
Stats Record shape). -/
structure StatsRecord where
  db_name : String
  db_path : String
  total_rows : Nat
  is_done_1_count : Nat
  cmx_document_id_not_empty_count : Nat
  is_done_0_count : Nat
  is_done_0_with_error_count : Nat
  error_message_breakdown : List (String × Nat)
deriving DecidableEq

/-- `SQLiteAnalyzer.get_stats` of `fsada_stats_ai_studio.py` (lines 66-155).
The table is `some rows` when the total-count query succeeds and `none` when
it fails (malformed file, missing table), in which case the function returns
`None`. -/
def get_stats_ai_studio (db_path : String) (table : Option (List DBRow)) :
    Option StatsRecord :=
  match table with
  | none => none
  | some t =>
    some
      { db_name := os_path_basename db_path
        db_path := db_path
        total_rows := t.length
        is_done_1_count := (t.filter isDone1Row).length
        cmx_document_id_not_empty_count := (t.filter cmxNotEmptyRow).length
        is_done_0_count := (t.filter isDone0Row).length
        is_done_0_with_error_count := (t.filter errRow).length
        error_message_breakdown := aggregate_error_messages (error_messages_raw t) }

/-- `SQLiteAnalyzer.get_stats` of `fsada_stats_openai.py` (lines 67-156): the
same queries, the same normalization loop and the same returned dictionary,
line for line. -/
def get_stats_openai (db_path : String) (table : Option (List DBRow)) :
    Option StatsRecord :=
  match table with
  | none => none
  | some t =>
    some
      { db_name := os_path_basename db_path
        db_path := db_path
        total_rows := t.length
        is_done_1_count := (t.filter isDone1Row).length
        cmx_document_id_not_empty_count := (t.filter cmxNotEmptyRow).length
        is_done_0_count := (t.filter isDone0Row).length
        is_done_0_with_error_count := (t.filter errRow).length
        error_message_breakdown := aggregate_error_messages (error_messages_raw t) }

/-- Sum of the occurrence counts stored in a breakdown dict. -/
def sum_breakdown (l : List (String × Nat)) : Nat := (l.map (fun p => p.2)).sum

/-! ### Stable descending sort: Python `sorted(items, key=count, reverse=True)` -/

/-- Insertion keeping counts descending: the new element is placed after every
element with a greater-or-equal count, exactly where Python's stable
`sorted(…, key=lambda it: it[1], reverse=True)` leaves it. -/
def insertByCountDesc (x : String × Nat) :
    List (String × Nat) → List (String × Nat)
  | [] => [x]
  | y :: ys => if x.2 ≤ y.2 then y :: insertByCountDesc x ys else x :: y :: ys

/-- Model of `sorted(breakdown.items(), key=lambda it: it[1], reverse=True)`
(used at lines 227-229, 302 of `fsada_stats_ai_studio.py` and lines 228-229,
284 of `fsada_stats_openai.py`): the unique stable sort placing larger counts
first and keeping encounter order among equal counts. -/
def sortByCountDesc (l : List (String × Nat)) : List (String × Nat) :=
  l.foldl (fun acc x => insertByCountDesc x acc) []

/-! ### Export rows -/

/-- Spreadsheet cell values: Python None, str, or int (every cell value built
by the two exporters is a string or an int). -/
inductive PyValue where
  | pynone : PyValue
  | pystr : String → PyValue
  | pyint : Int → PyValue
deriving DecidableEq

/-- The five per-database cells shared by every export row of a record, from
`_build_excel_rows` (lines 277-280 of `fsada_stats_openai.py`, including the
`db_path or db_name or ""` fallback). -/
def excel_base_info (stats : StatsRecord) (file_system : String) : List PyValue :=
  [PyValue.pystr file_system,
   PyValue.pystr (if stats.db_path != "" then stats.db_path
                  else if stats.db_name != "" then stats.db_name else ""),
   PyValue.pyint (stats.total_rows : Int),
   PyValue.pyint (stats.is_done_1_count : Int),
   PyValue.pyint (stats.is_done_0_count : Int)]

/-- `_build_excel_rows` of `fsada_stats_openai.py` (lines 274-293): one row
per error bucket sorted by count descending, or a single row with an empty
message and count 0 when the breakdown is empty. -/
def build_excel_rows (all_stats : List StatsRecord) (file_system : String) :
    List (List PyValue) :=
  all_stats.flatMap fun stats =>
    if stats.error_message_breakdown.isEmpty then
      [excel_base_info stats file_system ++ [PyValue.pystr "", PyValue.pyint 0]]
    else
      (sortByCountDesc stats.error_message_breakdown).map fun mc =>
        excel_base_info stats file_system ++ [PyValue.pystr mc.1, PyValue.pyint (mc.2 : Int)]

/-- The newline cleaning applied to CSV messages (line 306 of
`fsada_stats_ai_studio.py`): `msg.replace("\n", " ").replace("\r", "")`. -/
def clean_csv_message (msg : String) : String :=
  String.mk ((msg.data.map (fun c => if c = '\n' then ' ' else c)).filter (· != '\r'))

/-- The data rows written by `export_to_excel_csv` of
`fsada_stats_ai_studio.py` (lines 284-314), after the fixed header row. -/
def export_to_excel_csv_rows (all_stats : List StatsRecord)
    (fs_system_name : String) : List (List PyValue) :=
  all_stats.flatMap fun stat =>
    let base_info : List PyValue :=
      [PyValue.pystr fs_system_name, PyValue.pystr stat.db_path,
       PyValue.pyint (stat.total_rows : Int), PyValue.pyint (stat.is_done_1_count : Int),
       PyValue.pyint (stat.is_done_0_count : Int)]
    if stat.error_message_breakdown.isEmpty then
      [base_info ++ [PyValue.pystr "", PyValue.pyint 0]]
    else
      (sortByCountDesc stat.error_message_breakdown).map fun mc =>
        base_info ++ [PyValue.pystr (clean_csv_message mc.1), PyValue.pyint (mc.2 : Int)]

/-- Console truncation in `format_stats_report` (line 232):
`(msg[:77] + "...") if len(msg) > 80 else msg`. -/
def truncate_for_display (msg : String) : String :=
  if msg.data.length > 80 then String.mk (msg.data.take 77) ++ "..." else msg

/-- One table of error-detail display rows in `format_stats_report`
(lines 227-238): buckets sorted by count descending, the normalized bucket
replaced by a fixed label and long messages truncated — console display
only. -/
def err_display_rows (breakdown : List (String × Nat)) : List (String × Nat) :=
  (sortByCountDesc breakdown).map fun mc =>
    (if mc.1 == NORMALIZED_ERROR_MESSAGE then "[FICHIER MANQUANT NORMALISÉ]"
     else truncate_for_display mc.1, mc.2)

/-! ### Worksheet XML model and `export_stats_to_excel`
(`fsada_stats_openai.py`, lines 266-389) -/

/-- An ElementTree element: tag, attributes in document order, element text,
children. -/
inductive Xml where
  | elem (tag : String) (attrs : List (String × String)) (text : Option String)
      (children : List Xml)

/-- Tag of an element. -/
def Xml.tag : Xml → String
  | .elem t _ _ _ => t

/-- Attributes of an element. -/
def Xml.attrs : Xml → List (String × String)
  | .elem _ a _ _ => a

/-- Text of an element. -/
def Xml.text : Xml → Option String
  | .elem _ _ x _ => x

/-- Children of an element. -/
def Xml.children : Xml → List Xml
  | .elem _ _ _ c => c

instance : Inhabited Xml := ⟨Xml.elem "" [] none []⟩

/-- The spreadsheet-markup main namespace used in the source's Clark-notation
tag names. -/
def MAIN_NS : String := "http://schemas.openxmlformats.org/spreadsheetml/2006/main"

/-- The auxiliary `ac` namespace of the `dyDescent` row attribute. -/
def AC_NS : String := "http://schemas.microsoft.com/office/spreadsheetml/2009/9/ac"

/-- Clark-notation tag of the `<sheetData>` row container. -/
def sheetDataTag : String := "\x7b" ++ MAIN_NS ++ "\x7dsheetData"

/-- Clark-notation tag of a `<row>` element. -/
def rowTag : String := "\x7b" ++ MAIN_NS ++ "\x7drow"

/-- Clark-notation tag of a `<c>` cell element. -/
def cellTag : String := "\x7b" ++ MAIN_NS ++ "\x7dc"

/-- Clark-notation tag of a `<v>` value element. -/
def vTag : String := "\x7b" ++ MAIN_NS ++ "\x7dv"

/-- Clark-notation tag of an `<is>` inline-string element. -/
def isTag : String := "\x7b" ++ MAIN_NS ++ "\x7dis"

/-- Clark-notation tag of a `<t>` text element. -/
def tTag : String := "\x7b" ++ MAIN_NS ++ "\x7dt"

/-- Clark-notation name of the `dyDescent` row attribute. -/
def dyDescentAttr : String := "\x7b" ++ AC_NS ++ "\x7ddyDescent"

/-- Attribute lookup, ElementTree `elem.get(key)`. -/
def xmlGetAttr (x : Xml) (key : String) : Option String :=
  (x.attrs.find? (fun p => p.1 == key)).map (fun p => p.2)

/-- `root.find("main:sheetData", ns)`: the first direct child with the given
tag, or `none`. -/
def xmlFind (x : Xml) (tag : String) : Option Xml :=
  x.children.find? (fun c => c.tag == tag)

/-- Python whitespace stripped by `int(str)`. -/
def pyIsSpace (c : Char) : Bool :=
  c == ' ' || c == '\t' || c == '\n' || c == '\r' || c == '\x0b' || c == '\x0c'

/-- Value of a nonempty all-decimal-digit character list, `none` otherwise. -/
def decDigitsVal (l : List Char) : Option Nat :=
  if l.isEmpty then none
  else
    l.foldl
      (fun acc c =>
        match acc with
        | some n => if c.isDigit then some (n * 10 + (c.toNat - 48)) else none
        | none => none)
      (some 0)

/-- Python `int(s)` on the decimal strings relevant here: surrounding
whitespace is stripped, an optional sign precedes the digits; `none` models
the `ValueError` the source catches. -/
def parseIntPy (s : String) : Option Int :=
  let t := ((s.data.dropWhile pyIsSpace).reverse.dropWhile pyIsSpace).reverse
  match t with
  | '-' :: rest => (decDigitsVal rest).map (fun n => -(n : Int))
  | '+' :: rest => (decDigitsVal rest).map (fun n => (n : Int))
  | _ => (decDigitsVal t).map (fun n => (n : Int))

/-- `int(r.get("r"))` guarded by `try`: `none` when the attribute is missing
(TypeError) or not an integer (ValueError), both skipped by the source. -/
def parse_row_index (x : Xml) : Option Int := (xmlGetAttr x "r").bind parseIntPy

/-- `sheet_data.findall("main:row", ns)`: the direct `<row>` children. -/
def existing_rows (sheet_data : Xml) : List Xml :=
  sheet_data.children.filter (fun c => c.tag == rowTag)

/-- The `max_r` loop of `export_stats_to_excel` (lines 322-329): the largest
parseable row index among the given rows, starting from 0 and skipping rows
without one. -/
def max_r_fold (rows : List Xml) : Int :=
  rows.foldl
    (fun m r =>
      match parse_row_index r with
      | some rr => if m < rr then rr else m
      | none => m)
    0

/-- `_col_idx_to_name` (lines 266-271): bijective base-26 column naming
(1 → A, 26 → Z, 27 → AA, …). -/
def col_idx_to_name (idx : Nat) : String :=
  if _h : idx = 0 then ""
  else col_idx_to_name ((idx - 1) / 26) ++ String.mk [Char.ofNat (65 + (idx - 1) % 26)]
decreasing_by
  have h1 : (idx - 1) / 26 ≤ idx - 1 := Nat.div_le_self _ _
  omega

/-- Construction of one `<c>` cell element (lines 347-378): `None` or the
empty string → no value child and no text; int → a `<v>` child holding the
textual representation; any other string → `t="inlineStr"` with the text
nested in `<is><t>`. -/
def build_cell (row_index : Int) (col_idx : Nat) (value : PyValue) : Xml :=
  let cell_ref := col_idx_to_name col_idx ++ toString row_index
  match value with
  | .pynone => Xml.elem cellTag [("r", cell_ref), ("s", "2")] none []
  | .pystr s =>
    if s == "" then Xml.elem cellTag [("r", cell_ref), ("s", "2")] none []
    else
      Xml.elem cellTag [("r", cell_ref), ("s", "2"), ("t", "inlineStr")] none
        [Xml.elem isTag [] none [Xml.elem tTag [] (some s) []]]
  | .pyint n =>
    Xml.elem cellTag [("r", cell_ref), ("s", "2")] none
      [Xml.elem vTag [] (some (toString n)) []]

/-- The inner cell loop (`enumerate(row_values, start=1)`). -/
def build_cells (row_index : Int) (col_idx : Nat) : List PyValue → List Xml
  | [] => []
  | v :: rest => build_cell row_index col_idx v :: build_cells row_index (col_idx + 1) rest

/-- One appended `<row>` element (lines 334-380) with its fixed `spans` and
`dyDescent` attributes. -/
def build_row_elem (row_index : Int) (row_values : List PyValue) : Xml :=
  Xml.elem rowTag
    [("r", toString row_index), ("spans", "1:7"), (dyDescentAttr, "0.25")]
    none (build_cells row_index 1 row_values)

/-- The row elements appended by the outer loop, indices consecutive from
`start_row`. -/
def build_row_elems (start_row : Int) : List (List PyValue) → List Xml
  | [] => []
  | v :: rest => build_row_elem start_row v :: build_row_elems (start_row + 1) rest

/-- Replace the first child carrying the given tag: the source appends to the
element `find` returned, mutating it inside the tree. -/
def replaceFirstAux (tag : String) (f : Xml → Xml) : List Xml → List Xml
  | [] => []
  | c :: cs => if c.tag == tag then f c :: cs else c :: replaceFirstAux tag f cs

/-- Tree-level effect of mutating the found `<sheetData>` child. -/
def replaceFirstChild (x : Xml) (tag : String) (f : Xml → Xml) : Xml :=
  Xml.elem x.tag x.attrs x.text (replaceFirstAux tag f x.children)

/-- The worksheet surgery of `export_stats_to_excel` (lines 317-380): locate
the row container, compute the highest existing row index (`max_r`, default
0), and append one `<row>` element per export row numbered consecutively from
`start_row = max_r + 1 if max_r else 1`. -/
def append_rows_to_sheet (root : Xml) (rows_data : List (List PyValue)) :
    Except String Xml :=
  match xmlFind root sheetDataTag with
  | none => Except.error "Impossible de trouver <sheetData> dans le modèle Excel."
  | some sheet_data =>
    let maxr := max_r_fold (existing_rows sheet_data)
    let start_row := if maxr = 0 then 1 else maxr + 1
    Except.ok
      (replaceFirstChild root sheetDataTag fun sd =>
        Xml.elem sd.tag sd.attrs sd.text
          (sd.children ++ build_row_elems start_row rows_data))

/-- `export_stats_to_excel` (lines 296-389) up to byte serialization: builds
the export rows, raises `ValueError` on an empty row set before the template
archive is opened, then appends the rows to the template worksheet tree. -/
def export_stats_to_excel (template_sheet : Xml) (all_stats : List StatsRecord)
    (file_system : String) : Except String Xml :=
  let rows_data := build_excel_rows all_stats file_system
  if rows_data.isEmpty then
    Except.error "Aucune donnée à écrire dans le fichier Excel."
  else append_rows_to_sheet template_sheet rows_data

/-- The output-archive loop (lines 384-389): every entry of the input archive
is written to the output with identical content, except
`xl/worksheets/sheet1.xml` whose content is replaced by the re-serialized
worksheet. Content is type-generic: the source copies raw bytes. -/
def write_output_archive {α : Type} (zin : List (String × α)) (new_sheet_xml : α) :
    List (String × α) :=
  zin.map fun item =>
    if item.1 == "xl/worksheets/sheet1.xml" then (item.1, new_sheet_xml) else item

/-! ### Spec-side cell-typing definitions for claim C6 -/

/-- Modelled from the spec: a "blank" string, every character whitespace (the
empty string is vacuously blank). -/
def spec_isBlank (s : String) : Bool :=
  s.data.all (fun c => c == ' ' || c == '\t' || c == '\n' || c == '\r')

/-- Modelled from the spec: claim C6 as written — an empty or blank string
yields a genuinely empty cell, a numeric value a `<v>` child, anything else
inline text. -/
def spec_cell_claimed (cell_ref : String) (value : PyValue) : Xml :=
  match value with
  | .pynone => Xml.elem cellTag [("r", cell_ref), ("s", "2")] none []
  | .pystr s =>
    if spec_isBlank s then Xml.elem cellTag [("r", cell_ref), ("s", "2")] none []
    else
      Xml.elem cellTag [("r", cell_ref), ("s", "2"), ("t", "inlineStr")] none
        [Xml.elem isTag [] none [Xml.elem tTag [] (some s) []]]
  | .pyint n =>
    Xml.elem cellTag [("r", cell_ref), ("s", "2")] none
      [Xml.elem vTag [] (some (toString n)) []]

/-- The cell-typing rule as amended: `None` or the exactly-empty string yields
the empty cell; an int yields a `<v>` value child with the textual
representation; any other string — including whitespace-only ones — yields an
inline-text cell with the text nested two levels deep. -/
def spec_cell_amended (cell_ref : String) (value : PyValue) : Xml :=
  match value with
  | .pynone => Xml.elem cellTag [("r", cell_ref), ("s", "2")] none []
  | .pystr s =>
    if s = "" then Xml.elem cellTag [("r", cell_ref), ("s", "2")] none []
    else
      Xml.elem cellTag [("r", cell_ref), ("s", "2"), ("t", "inlineStr")] none
        [Xml.elem isTag [] none [Xml.elem tTag [] (some s) []]]
  | .pyint n =>
    Xml.elem cellTag [("r", cell_ref), ("s", "2")] none
      [Xml.elem vTag [] (some (toString n)) []]

/-! ### Concrete witness and counterexample data -/

/-- Concrete table of the end-to-end scenario in the spec: 7 completed rows,
2 pending rows with NULL error, 3 pending rows with the same missing-file
error message. -/
def witness_table : List DBRow :=
  List.replicate 7 ⟨some 1, some "doc", none⟩ ++
    List.replicate 2 ⟨some 0, none, none⟩ ++
    List.replicate 3
      ⟨some 0, none,
        some "The specified file /a/b.pdf does not exists or is not readable.: Invalid file"⟩

/-- The Stats Record that `get_stats` computes on `witness_table`. -/
def witness_record : StatsRecord :=
  { db_name := "db.sqlite"
    db_path := "x/db.sqlite"
    total_rows := 12
    is_done_1_count := 7
    cmx_document_id_not_empty_count := 7
    is_done_0_count := 5
    is_done_0_with_error_count := 3
    error_message_breakdown := [(NORMALIZED_ERROR_MESSAGE, 3)] }

/-- A message of the exact missing-file shape (no trailing text). -/
def claim4_good : String :=
  "The specified file /a/b.pdf does not exists or is not readable.: Invalid file"

/-- A message that begins with the missing-file shape but carries trailing
text, so it is not of the exact shape required by claim C4. -/
def claim4_cx : String :=
  "The specified file /a/b.pdf does not exists or is not readable.: Invalid file and also the disk quota was exceeded"

/-- A Stats Record whose single error bucket is a canonical message
containing a newline, used to refute the CSV half of claim C9. -/
def claim9_cx_record : StatsRecord :=
  { db_name := "db9.sqlite"
    db_path := "/data/db9.sqlite"
    total_rows := 4
    is_done_1_count := 1
    cmx_document_id_not_empty_count := 1
    is_done_0_count := 3
    is_done_0_with_error_count := 3
    error_message_breakdown := [("first line\nsecond line", 3)] }

/-- A concrete template worksheet tree: a `<sheetData>` with two header rows
indexed 1 and 2, as in the shipped `entete_stats.xlsx` model. -/
def wSheetData : Xml :=
  Xml.elem sheetDataTag [] none
    [Xml.elem rowTag [("r", "1")] none [],
     Xml.elem rowTag [("r", "2")] none []]

/-- The worksheet root wrapping `wSheetData`. -/
def wTemplateRoot : Xml :=
  Xml.elem "worksheet" [] none [wSheetData]

/-- A record with an empty error breakdown (yields one export row). -/
def wRecordEmpty : StatsRecord :=
  { db_name := "clean.sqlite"
    db_path := "/data/clean.sqlite"
    total_rows := 5
    is_done_1_count := 5
    cmx_document_id_not_empty_count := 5
    is_done_0_count := 0
    is_done_0_with_error_count := 0
    error_message_breakdown := [] }

/-- A record with two error buckets (yields two export rows). -/
def wRecordTwo : StatsRecord :=
  { db_name := "two.sqlite"
    db_path := "/data/two.sqlite"
    total_rows := 9
    is_done_1_count := 6
    cmx_document_id_not_empty_count := 6
    is_done_0_count := 3
    is_done_0_with_error_count := 3
    error_message_breakdown := [("timeout", 1), ("corrupt header", 2)] }

/-- The export rows of the spec's second end-to-end scenario: two records,
one with an empty breakdown and one with two buckets, hence 3 rows. -/
def wRowsData : List (List PyValue) :=
  build_excel_rows [wRecordEmpty, wRecordTwo] "FS"

/-- The worksheet tree produced by appending `wRowsData` to `wTemplateRoot`. -/
def wRoot2 : Xml :=
  match append_rows_to_sheet wTemplateRoot wRowsData with
  | Except.ok r => r
  | Except.error _ => default

/-- A concrete archive with the worksheet part flanked by two other parts
(content modelled as bytes stand-ins). -/
def wParts : List (String × Nat) :=
  [("xl/styles.xml", 11), ("xl/worksheets/sheet1.xml", 22), ("xl/sharedStrings.xml", 33)]

/-! # Theorems

### Supporting lemmas for the matcher -/

theorem isPrefixOf_eq_true_iff (p l : List Char) :
    List.isPrefixOf p l = true ↔ ∃ t, l = p ++ t := by
  induction p generalizing l with
  | nil =>
    simp [List.isPrefixOf]
  | cons a p ih =>
    cases l with
    | nil =>
      simp [List.isPrefixOf]
    | cons b l =>
      simp only [List.isPrefixOf, Bool.and_eq_true, beq_iff_eq, ih, List.cons_append,
        List.cons.injEq]
      constructor
      · rintro ⟨rfl, t, rfl⟩
        exact ⟨t, rfl, rfl⟩
      · rintro ⟨t, rfl, rfl⟩
        exact ⟨rfl, t, rfl⟩

theorem ERROR_PATTERN_tail_ne_nil : ERROR_PATTERN_tail ≠ [] := by decide

theorem reMatchTail_iff (l : List Char) :
    reMatchTail l = true ↔
      ∃ mid suffix : List Char,
        (∀ c ∈ mid, c ≠ '\n') ∧ l = mid ++ ERROR_PATTERN_tail ++ suffix := by
  induction l with
  | nil =>
    simp only [reMatchTail, Bool.false_eq_true, false_iff]
    rintro ⟨mid, suffix, -, h⟩
    rcases mid with _ | ⟨c, mid⟩
    · rcases hne : ERROR_PATTERN_tail with _ | ⟨d, t⟩
      · exact ERROR_PATTERN_tail_ne_nil hne
      · rw [hne] at h; simp at h
    · simp at h
  | cons c rest ih =>
    simp only [reMatchTail, Bool.or_eq_true, Bool.and_eq_true, bne_iff_ne, ne_eq,
      isPrefixOf_eq_true_iff, ih]
    constructor
    · rintro (⟨t, ht⟩ | ⟨hc, mid, suffix, hmid, hrest⟩)
      · exact ⟨[], t, by simp, by simpa using ht⟩
      · refine ⟨c :: mid, suffix, ?_, by simp [hrest]⟩
        intro d hd
        rcases List.mem_cons.mp hd with rfl | hd
        · exact hc
        · exact hmid d hd
    · rintro ⟨mid, suffix, hmid, h⟩
      rcases mid with _ | ⟨d, mid⟩
      · exact Or.inl ⟨suffix, by simpa using h⟩
      · simp only [List.cons_append, List.cons.injEq] at h
        rcases h with ⟨rfl, hrest⟩
        refine Or.inr ⟨hmid c (by simp), mid, suffix, ?_, hrest⟩
        intro e he
        exact hmid e (by simp [he])

theorem re_match_iff (s : String) :
    re_match_ERROR_PATTERN s = true ↔ MatchesShape s := by
  unfold re_match_ERROR_PATTERN MatchesShape
  simp only [Bool.and_eq_true, isPrefixOf_eq_true_iff, reMatchTail_iff]
  constructor
  · rintro ⟨⟨t, ht⟩, mid, suffix, hmid, hdrop⟩
    refine ⟨mid, suffix, hmid, ?_⟩
    have : s.data.drop ERROR_PATTERN_head.length = t := by
      rw [ht]; exact List.drop_left _ _
    rw [ht, this.symm, hdrop]
    simp [List.append_assoc]
  · rintro ⟨mid, suffix, hmid, hs⟩
    refine ⟨⟨mid ++ ERROR_PATTERN_tail ++ suffix, by simpa [List.append_assoc] using hs⟩,
      mid, suffix, hmid, ?_⟩
    rw [hs]
    have : ERROR_PATTERN_head ++ mid ++ ERROR_PATTERN_tail ++ suffix
        = ERROR_PATTERN_head ++ (mid ++ ERROR_PATTERN_tail ++ suffix) := by
      simp [List.append_assoc]
    rw [this, List.drop_left]

theorem re_match_NORMALIZED :
    re_match_ERROR_PATTERN NORMALIZED_ERROR_MESSAGE = true := by decide

/-! ### Claim C5 -/

/-- C5: normalization is idempotent: `normalize(normalize(x)) == normalize(x)`
for every string `x`; in particular the canonical placeholder message
normalizes to itself. -/
theorem claim5_normalize_idempotent :
    (∀ x : String,
      normalize_error_message (normalize_error_message x) = normalize_error_message x)
    ∧ normalize_error_message NORMALIZED_ERROR_MESSAGE = NORMALIZED_ERROR_MESSAGE := by
  have hfix : normalize_error_message NORMALIZED_ERROR_MESSAGE = NORMALIZED_ERROR_MESSAGE := by
    unfold normalize_error_message
    exact ite_self _
  refine ⟨fun x => ?_, hfix⟩
  by_cases h : re_match_ERROR_PATTERN x = true
  · have h1 : normalize_error_message x = NORMALIZED_ERROR_MESSAGE := by
      rw [normalize_error_message, if_pos h]
    rw [h1, hfix]
  · have h1 : normalize_error_message x = x := by
      rw [normalize_error_message, if_neg h]
    rw [h1]
    exact h1

/-! ### Claim C4 -/

/-- C4 counterexample: the claim says only strings of the exact missing-file
shape are replaced and every other string is left unchanged; but `re.match`
does not anchor at the end of the string, so a message that merely begins
with the shape and carries trailing text is also replaced — and collapses
into the same bucket as genuine missing-file errors. -/
theorem claim4_counterexample :
    spec_exactMissingFileShape claim4_cx = false ∧
      normalize_error_message claim4_cx ≠ claim4_cx ∧
      normalize_error_message claim4_cx = NORMALIZED_ERROR_MESSAGE ∧
      normalize_error_message claim4_cx = normalize_error_message claim4_good ∧
      claim4_cx ≠ claim4_good := by decide

/-- C4 as amended: `normalize` maps exactly the strings that BEGIN with the
missing-file shape (fixed wording and case, arbitrary newline-free embedded
path, arbitrary trailing text) to the canonical placeholder key, leaves every
other string unchanged, and never collapses two distinct messages unless both
begin with that shape. -/
theorem claim4_normalize_amended (s t : String) :
    (MatchesShape s → normalize_error_message s = NORMALIZED_ERROR_MESSAGE) ∧
      (¬MatchesShape s → normalize_error_message s = s) ∧
      (normalize_error_message s = normalize_error_message t →
        s = t ∨ (MatchesShape s ∧ MatchesShape t)) := by
  have norm_of (x : String) (h : re_match_ERROR_PATTERN x = true) :
      normalize_error_message x = NORMALIZED_ERROR_MESSAGE := by
    rw [normalize_error_message, if_pos h]
  have norm_not (x : String) (h : ¬re_match_ERROR_PATTERN x = true) :
      normalize_error_message x = x := by
    rw [normalize_error_message, if_neg h]
  refine ⟨?_, ?_, ?_⟩
  · intro h
    exact norm_of s ((re_match_iff s).mpr h)
  · intro h
    exact norm_not s (fun hm => h ((re_match_iff s).mp hm))
  · intro heq
    by_cases hs : re_match_ERROR_PATTERN s = true
    · by_cases ht : re_match_ERROR_PATTERN t = true
      · exact Or.inr ⟨(re_match_iff s).mp hs, (re_match_iff t).mp ht⟩
      · exfalso
        rw [norm_of s hs, norm_not t ht] at heq
        rw [← heq] at ht
        exact ht re_match_NORMALIZED
    · by_cases ht : re_match_ERROR_PATTERN t = true
      · exfalso
        rw [norm_not s hs, norm_of t ht] at heq
        rw [heq] at hs
        exact hs re_match_NORMALIZED
      · rw [norm_not s hs, norm_not t ht] at heq
        exact Or.inl heq

/-- Witness for C4 as amended: a genuine missing-file message is sent to the
placeholder, and an unrelated message is left unchanged. -/
theorem claim4_normalize_amended_witness :
    normalize_error_message claim4_good = NORMALIZED_ERROR_MESSAGE ∧
      normalize_error_message "connection refused" = "connection refused" :=
  ⟨(claim4_normalize_amended claim4_good claim4_good).1
      ⟨"/a/b.pdf".data, [], by decide, by decide⟩,
    (claim4_normalize_amended "connection refused" "connection refused").2.1
      (fun hm => by
        have := (re_match_iff "connection refused").mpr hm
        exact absurd this (by decide))⟩

/-! ### Claim C3 -/

theorem sum_breakdown_dict_incr (l : List (String × Nat)) (k : String) :
    sum_breakdown (dict_incr l k) = sum_breakdown l + 1 := by
  induction l with
  | nil => simp [dict_incr, sum_breakdown]
  | cons p rest ih =>
    obtain ⟨k2, v⟩ := p
    by_cases h : (k2 == k) = true
    · simp [dict_incr, h, sum_breakdown, Nat.add_assoc, Nat.add_comm, Nat.add_left_comm]
    · simp only [dict_incr, h, Bool.false_eq_true, if_false, sum_breakdown, List.map_cons,
        List.sum_cons] at ih ⊢
      rw [ih]
      omega

theorem sum_breakdown_foldl (msgs : List String) (acc : List (String × Nat)) :
    sum_breakdown (msgs.foldl (fun a m => dict_incr a (normalize_error_message m)) acc)
      = sum_breakdown acc + msgs.length := by
  induction msgs generalizing acc with
  | nil => simp
  | cons m rest ih =>
    simp only [List.foldl_cons, List.length_cons, ih, sum_breakdown_dict_incr]
    omega

/-- C3: for every Stats Record produced by `get_stats`, the values of
`error_message_breakdown` sum to `is_done_0_with_error_count` (the
pending-with-error counter): both are computed from the rows satisfying the
same SQL predicate, and the aggregation loop adds exactly one to the dict for
each such row. -/
theorem claim3_breakdown_sum (db_path : String) (table : Option (List DBRow))
    (rec : StatsRecord) (h : get_stats_ai_studio db_path table = some rec) :
    sum_breakdown rec.error_message_breakdown = rec.is_done_0_with_error_count := by
  rcases table with _ | t
  · exact absurd h (by simp [get_stats_ai_studio])
  · simp only [get_stats_ai_studio, Option.some.injEq] at h
    subst h
    simp only [aggregate_error_messages, sum_breakdown_foldl, error_messages_raw,
      List.length_map]
    simp [sum_breakdown]

/-- Witness for C3: on the concrete 12-row table the breakdown is the single
normalized bucket with count 3, which equals the pending-with-error count. -/
theorem claim3_breakdown_sum_witness :
    sum_breakdown witness_record.error_message_breakdown
      = witness_record.is_done_0_with_error_count :=
  claim3_breakdown_sum "x/db.sqlite" (some witness_table) witness_record (by decide)

/-! ### Claim C10 -/

/-- C10: the two script variants implement the same statistics engine: on
every database table content (and on every failure) `get_stats` of
`fsada_stats_ai_studio.py` and `get_stats` of `fsada_stats_openai.py` return
equal Stats Records; their bodies are line-identical and only console output
differs. -/
theorem claim10_engines_equal (db_path : String) (table : Option (List DBRow)) :
    get_stats_ai_studio db_path table = get_stats_openai db_path table := rfl

/-! ### Claim C6 -/

/-- C6 counterexample: the claim says an empty or blank string yields a
genuinely empty cell, but the source only special-cases the exactly-empty
string (`value == ""`), so the blank one-space string is written as an
inline-text cell with a child. -/
theorem claim6_counterexample :
    spec_isBlank " " = true ∧
      build_cell 3 6 (PyValue.pystr " ")
        ≠ spec_cell_claimed (col_idx_to_name 6 ++ toString (3 : Int)) (PyValue.pystr " ") ∧
      xmlGetAttr (build_cell 3 6 (PyValue.pystr " ")) "t" = some "inlineStr" ∧
      (build_cell 3 6 (PyValue.pystr " ")).children.length = 1 ∧
      (spec_cell_claimed (col_idx_to_name 6 ++ toString (3 : Int))
          (PyValue.pystr " ")).children.length = 0 := by
  refine ⟨by decide, fun h => ?_, by decide, by decide, by decide⟩
  have h2 := congrArg (fun x => x.children.length) h
  exact absurd h2 (by decide)

/-- C6 as amended: for every cell value written by the exporter, `None` or
the exactly-empty string yields a cell element with no value child and no
children at all; an int yields a `<v>` value child holding the textual
representation of the number; any other string — blank ones included — yields
a cell marked `t="inlineStr"` with the text nested two levels deep
(`<is><t>`). -/
theorem claim6_cell_typing_amended (row_index : Int) (col_idx : Nat) (value : PyValue) :
    build_cell row_index col_idx value
      = spec_cell_amended (col_idx_to_name col_idx ++ toString row_index) value := by
  cases value with
  | pynone => rfl
  | pyint n => rfl
  | pystr s =>
    simp only [build_cell, spec_cell_amended, beq_iff_eq]

/-! ### Stable-sort lemmas -/

theorem insertByCountDesc_perm (x : String × Nat) (l : List (String × Nat)) :
    List.Perm (insertByCountDesc x l) (x :: l) := by
  induction l with
  | nil => exact List.Perm.refl _
  | cons y ys ih =>
    by_cases h : x.2 ≤ y.2
    · simp only [insertByCountDesc, if_pos h]
      exact List.Perm.trans (List.Perm.cons y ih) (List.Perm.swap x y ys)
    · simp only [insertByCountDesc, if_neg h]
      exact List.Perm.refl _

theorem mem_insertByCountDesc {z x : String × Nat} {l : List (String × Nat)}
    (h : z ∈ insertByCountDesc x l) : z = x ∨ z ∈ l :=
  List.mem_cons.mp ((insertByCountDesc_perm x l).mem_iff.mp h)

theorem insertByCountDesc_pairwise (x : String × Nat) (l : List (String × Nat))
    (hl : l.Pairwise (fun a b => b.2 ≤ a.2)) :
    (insertByCountDesc x l).Pairwise (fun a b => b.2 ≤ a.2) := by
  induction l with
  | nil => simp [insertByCountDesc]
  | cons y ys ih =>
    rcases List.pairwise_cons.mp hl with ⟨hy, hys⟩
    by_cases h : x.2 ≤ y.2
    · simp only [insertByCountDesc, if_pos h]
      refine List.pairwise_cons.mpr ⟨?_, ih hys⟩
      intro z hz
      rcases mem_insertByCountDesc hz with rfl | hz
      · exact h
      · exact hy z hz
    · simp only [insertByCountDesc, if_neg h]
      push_neg at h
      refine List.pairwise_cons.mpr ⟨?_, hl⟩
      intro z hz
      rcases List.mem_cons.mp hz with rfl | hz
      · exact Nat.le_of_lt h
      · exact Nat.le_trans (hy z hz) (Nat.le_of_lt h)

theorem insertByCountDesc_filter (x : String × Nat) (l : List (String × Nat))
    (hl : l.Pairwise (fun a b => b.2 ≤ a.2)) (c : Nat) :
    (insertByCountDesc x l).filter (fun p => p.2 == c)
      = if x.2 == c then l.filter (fun p => p.2 == c) ++ [x]
        else l.filter (fun p => p.2 == c) := by
  induction l with
  | nil =>
    by_cases h : (x.2 == c) = true <;> simp [insertByCountDesc, List.filter, h]
  | cons y ys ih =>
    rcases List.pairwise_cons.mp hl with ⟨hy, hys⟩
    by_cases h : x.2 ≤ y.2
    · simp only [insertByCountDesc, if_pos h]
      by_cases hyc : (y.2 == c) = true <;> by_cases hxc : (x.2 == c) = true <;>
        simp [List.filter_cons, hyc, hxc, ih hys]
    · simp only [insertByCountDesc, if_neg h]
      push_neg at h
      by_cases hxc : (x.2 == c) = true
      · have hxeq : x.2 = c := by simpa using hxc
        have hnil : (y :: ys).filter (fun p => p.2 == c) = [] := by
          rw [List.filter_eq_nil_iff]
          intro z hz
          have hzy : z.2 ≤ y.2 := by
            rcases List.mem_cons.mp hz with rfl | hz2
            · exact Nat.le_refl _
            · exact hy z hz2
          simp only [beq_iff_eq]
          omega
        simp [List.filter_cons, hxc, hnil]
      · simp [List.filter_cons, hxc]

theorem sort_foldl_invariant (l acc : List (String × Nat))
    (hacc : acc.Pairwise (fun a b => b.2 ≤ a.2)) :
    (l.foldl (fun a x => insertByCountDesc x a) acc).Pairwise (fun a b => b.2 ≤ a.2) ∧
      ∀ c, (l.foldl (fun a x => insertByCountDesc x a) acc).filter (fun p => p.2 == c)
        = acc.filter (fun p => p.2 == c) ++ l.filter (fun p => p.2 == c) := by
  induction l generalizing acc with
  | nil => simpa using hacc
  | cons x xs ih =>
    have hins := insertByCountDesc_pairwise x acc hacc
    rcases ih (insertByCountDesc x acc) hins with ⟨hp, hf⟩
    refine ⟨by simpa using hp, fun c => ?_⟩
    rw [List.foldl_cons]
    rw [hf c, insertByCountDesc_filter x acc hacc c]
    by_cases hxc : (x.2 == c) = true
    · simp [List.filter_cons, hxc, List.append_assoc]
    · simp [List.filter_cons, hxc]

theorem sort_foldl_perm (l acc : List (String × Nat)) :
    List.Perm (l.foldl (fun a x => insertByCountDesc x a) acc) (acc ++ l) := by
  induction l generalizing acc with
  | nil => simp
  | cons x xs ih =>
    rw [List.foldl_cons]
    refine List.Perm.trans (ih (insertByCountDesc x acc)) ?_
    refine List.Perm.trans ((insertByCountDesc_perm x acc).append_right xs) ?_
    exact List.perm_middle.symm

theorem sortByCountDesc_perm (l : List (String × Nat)) :
    List.Perm (sortByCountDesc l) l := by
  simpa using sort_foldl_perm l []

theorem sortByCountDesc_pairwise (l : List (String × Nat)) :
    (sortByCountDesc l).Pairwise (fun a b => b.2 ≤ a.2) :=
  (sort_foldl_invariant l [] List.Pairwise.nil).1

theorem sortByCountDesc_filter (l : List (String × Nat)) (c : Nat) :
    (sortByCountDesc l).filter (fun p => p.2 == c) = l.filter (fun p => p.2 == c) := by
  simpa using (sort_foldl_invariant l [] List.Pairwise.nil).2 c

theorem sortByCountDesc_length (l : List (String × Nat)) :
    (sortByCountDesc l).length = l.length :=
  (sortByCountDesc_perm l).length_eq

/-! ### Claim C2 -/

/-- C2: for every Stats Record, the spreadsheet row builder and the CSV
exporter emit exactly one Export Row when `error_breakdown` is empty — that
row carrying an empty error message and error count zero after the five
per-database cells — and exactly N rows when it has N buckets: one row per
bucket, in count-descending order (the sorted bucket list is a permutation of
the breakdown with pairwise-descending counts), every row sharing the same
five per-database cells; so every record contributes at least one row, and a
record's rows form one contiguous block within the whole export. -/
theorem claim2_export_row_counts (s : StatsRecord) (fs : String)
    (pre post : List StatsRecord) :
    (build_excel_rows [s] fs).length
        = (if s.error_message_breakdown.isEmpty then 1
           else s.error_message_breakdown.length) ∧
      (export_to_excel_csv_rows [s] fs).length
        = (if s.error_message_breakdown.isEmpty then 1
           else s.error_message_breakdown.length) ∧
      1 ≤ (build_excel_rows [s] fs).length ∧
      1 ≤ (export_to_excel_csv_rows [s] fs).length ∧
      build_excel_rows [s] fs
        = (if s.error_message_breakdown.isEmpty then
            [excel_base_info s fs ++ [PyValue.pystr "", PyValue.pyint 0]]
          else
            (sortByCountDesc s.error_message_breakdown).map (fun mc =>
              excel_base_info s fs ++ [PyValue.pystr mc.1, PyValue.pyint (mc.2 : Int)])) ∧
      export_to_excel_csv_rows [s] fs
        = (if s.error_message_breakdown.isEmpty then
            [[PyValue.pystr fs, PyValue.pystr s.db_path, PyValue.pyint (s.total_rows : Int),
              PyValue.pyint (s.is_done_1_count : Int), PyValue.pyint (s.is_done_0_count : Int),
              PyValue.pystr "", PyValue.pyint 0]]
          else
            (sortByCountDesc s.error_message_breakdown).map (fun mc =>
              [PyValue.pystr fs, PyValue.pystr s.db_path, PyValue.pyint (s.total_rows : Int),
                PyValue.pyint (s.is_done_1_count : Int), PyValue.pyint (s.is_done_0_count : Int),
                PyValue.pystr (clean_csv_message mc.1), PyValue.pyint (mc.2 : Int)])) ∧
      List.Perm (sortByCountDesc s.error_message_breakdown) s.error_message_breakdown ∧
      (sortByCountDesc s.error_message_breakdown).Pairwise (fun a b => b.2 ≤ a.2) ∧
      (∀ row ∈ build_excel_rows [s] fs, row.take 5 = excel_base_info s fs) ∧
      (∀ row ∈ export_to_excel_csv_rows [s] fs,
        row.take 5 = [PyValue.pystr fs, PyValue.pystr s.db_path,
          PyValue.pyint (s.total_rows : Int), PyValue.pyint (s.is_done_1_count : Int),
          PyValue.pyint (s.is_done_0_count : Int)]) ∧
      build_excel_rows (pre ++ s :: post) fs
        = build_excel_rows pre fs ++ build_excel_rows [s] fs
            ++ build_excel_rows post fs := by
  have hsplit : build_excel_rows (pre ++ s :: post) fs
      = build_excel_rows pre fs ++ build_excel_rows [s] fs
          ++ build_excel_rows post fs := by
    simp only [build_excel_rows, List.flatMap_append, List.flatMap_cons, List.flatMap_nil,
      List.append_nil, List.append_assoc]
  have hx1 : build_excel_rows [s] fs
      = (if s.error_message_breakdown.isEmpty then
          [excel_base_info s fs ++ [PyValue.pystr "", PyValue.pyint 0]]
        else
          (sortByCountDesc s.error_message_breakdown).map (fun mc =>
            excel_base_info s fs ++ [PyValue.pystr mc.1, PyValue.pyint (mc.2 : Int)])) := by
    by_cases hbe : s.error_message_breakdown = []
    · simp [build_excel_rows, hbe]
    · simp [build_excel_rows, hbe]
  have hc1 : export_to_excel_csv_rows [s] fs
      = (if s.error_message_breakdown.isEmpty then
          [[PyValue.pystr fs, PyValue.pystr s.db_path, PyValue.pyint (s.total_rows : Int),
            PyValue.pyint (s.is_done_1_count : Int), PyValue.pyint (s.is_done_0_count : Int),
            PyValue.pystr "", PyValue.pyint 0]]
        else
          (sortByCountDesc s.error_message_breakdown).map (fun mc =>
            [PyValue.pystr fs, PyValue.pystr s.db_path, PyValue.pyint (s.total_rows : Int),
              PyValue.pyint (s.is_done_1_count : Int), PyValue.pyint (s.is_done_0_count : Int),
              PyValue.pystr (clean_csv_message mc.1), PyValue.pyint (mc.2 : Int)])) := by
    by_cases hbe : s.error_message_breakdown = []
    · simp [export_to_excel_csv_rows, hbe]
    · simp [export_to_excel_csv_rows, hbe]
  have hlen : ¬s.error_message_breakdown.isEmpty = true →
      1 ≤ s.error_message_breakdown.length := by
    intro hbe
    cases h0 : s.error_message_breakdown with
    | nil => exact absurd (by simp [h0]) hbe
    | cons a rest => simp
  refine ⟨?_, ?_, ?_, ?_, hx1, hc1, sortByCountDesc_perm _, sortByCountDesc_pairwise _,
    ?_, ?_, hsplit⟩
  · rw [hx1]
    by_cases hbe : s.error_message_breakdown.isEmpty = true
    · simp [hbe]
    · simp [hbe, sortByCountDesc_length]
  · rw [hc1]
    by_cases hbe : s.error_message_breakdown.isEmpty = true
    · simp [hbe]
    · simp [hbe, sortByCountDesc_length]
  · rw [hx1]
    by_cases hbe : s.error_message_breakdown.isEmpty = true
    · simp [hbe]
    · simpa [hbe, sortByCountDesc_length] using hlen hbe
  · rw [hc1]
    by_cases hbe : s.error_message_breakdown.isEmpty = true
    · simp [hbe]
    · simpa [hbe, sortByCountDesc_length] using hlen hbe
  · intro row hrow
    rw [hx1] at hrow
    by_cases hbe : s.error_message_breakdown.isEmpty = true
    · rw [if_pos hbe] at hrow
      rcases List.mem_singleton.mp hrow with rfl
      simp [excel_base_info, List.take]
    · rw [if_neg hbe] at hrow
      rcases List.mem_map.mp hrow with ⟨mc, _hmc, rfl⟩
      simp [excel_base_info, List.take]
  · intro row hrow
    rw [hc1] at hrow
    by_cases hbe : s.error_message_breakdown.isEmpty = true
    · rw [if_pos hbe] at hrow
      rcases List.mem_singleton.mp hrow with rfl
      simp [List.take]
    · rw [if_neg hbe] at hrow
      rcases List.mem_map.mp hrow with ⟨mc, _hmc, rfl⟩
      simp [List.take]

/-! ### Claim C9 -/

/-- C9 counterexample: the claim says export rows always carry the
untruncated canonical message, but the CSV exporter writes
`msg.replace("\n", " ").replace("\r", "")`, so a canonical message containing
a newline reaches the export row altered. -/
theorem claim9_counterexample :
    export_to_excel_csv_rows [claim9_cx_record] "FS"
        = [[PyValue.pystr "FS", PyValue.pystr "/data/db9.sqlite", PyValue.pyint 4,
            PyValue.pyint 1, PyValue.pyint 3, PyValue.pystr "first line second line",
            PyValue.pyint 3]] ∧
      claim9_cx_record.error_message_breakdown = [("first line\nsecond line", 3)] ∧
      "first line second line" ≠ "first line\nsecond line" := by decide

/-- C9 as amended: error detail rows are sorted by occurrence count
descending with ties keeping encounter order (a stable sort: the sorted list
is a permutation, its counts are pairwise descending, and for every count
value the elements carrying it keep their relative order); messages longer
than 80 characters are truncated to 77 characters plus an ellipsis for
console display only; export rows carry the untruncated message — the
spreadsheet exporter carries the canonical message verbatim, while the CSV
exporter carries it with newline characters replaced by spaces and carriage
returns removed (still never truncated; messages without newline characters
are carried verbatim). -/
theorem claim9_sorting_truncation_amended (l : List (String × Nat))
    (s : StatsRecord) (fs : String) (msg : String) :
    List.Perm (sortByCountDesc l) l ∧
      (sortByCountDesc l).Pairwise (fun a b => b.2 ≤ a.2) ∧
      (∀ c, (sortByCountDesc l).filter (fun p => p.2 == c)
          = l.filter (fun p => p.2 == c)) ∧
      err_display_rows l
        = (sortByCountDesc l).map (fun mc =>
            (if mc.1 == NORMALIZED_ERROR_MESSAGE then "[FICHIER MANQUANT NORMALISÉ]"
             else truncate_for_display mc.1, mc.2)) ∧
      (¬s.error_message_breakdown.isEmpty = true →
        build_excel_rows [s] fs
          = (sortByCountDesc s.error_message_breakdown).map (fun mc =>
              excel_base_info s fs
                ++ [PyValue.pystr mc.1, PyValue.pyint (mc.2 : Int)])) ∧
      (¬s.error_message_breakdown.isEmpty = true →
        export_to_excel_csv_rows [s] fs
          = (sortByCountDesc s.error_message_breakdown).map (fun mc =>
              [PyValue.pystr fs, PyValue.pystr s.db_path,
                PyValue.pyint (s.total_rows : Int), PyValue.pyint (s.is_done_1_count : Int),
                PyValue.pyint (s.is_done_0_count : Int)]
                ++ [PyValue.pystr (clean_csv_message mc.1), PyValue.pyint (mc.2 : Int)])) ∧
      ((∀ c ∈ msg.data, c ≠ '\n' ∧ c ≠ '\r') → clean_csv_message msg = msg) := by
  refine ⟨sortByCountDesc_perm l, sortByCountDesc_pairwise l, sortByCountDesc_filter l,
    rfl, ?_, ?_, ?_⟩
  · intro hne
    have hbe : s.error_message_breakdown ≠ [] := by simpa using hne
    simp [build_excel_rows, hbe]
  · intro hne
    have hbe : s.error_message_breakdown ≠ [] := by simpa using hne
    simp [export_to_excel_csv_rows, hbe]
  · intro hfree
    obtain ⟨d⟩ := msg
    simp only [clean_csv_message]
    have hmap : d.map (fun c => if c = '\n' then ' ' else c) = d := by
      have : d.map (fun c => if c = '\n' then ' ' else c) = d.map id := by
        apply List.map_congr_left
        intro a ha
        simp [(hfree a ha).1]
      simpa using this
    rw [hmap]
    have hfilter : d.filter (fun c => c != '\r') = d := by
      rw [List.filter_eq_self]
      intro a ha
      simpa using (hfree a ha).2
    rw [hfilter]

/-- Witness for C9 as amended: the spreadsheet export rows of a concrete
record with a nonempty breakdown equal the sorted verbatim-message rows, and
a newline-free message passes through the CSV cleaning unchanged. -/
theorem claim9_sorting_truncation_amended_witness :
    build_excel_rows [claim9_cx_record] "FS"
        = (sortByCountDesc claim9_cx_record.error_message_breakdown).map (fun mc =>
            excel_base_info claim9_cx_record "FS"
              ++ [PyValue.pystr mc.1, PyValue.pyint (mc.2 : Int)]) ∧
      clean_csv_message "plain message" = "plain message" :=
  ⟨(claim9_sorting_truncation_amended [] claim9_cx_record "FS" "plain message").2.2.2.2.1
      (by decide),
    (claim9_sorting_truncation_amended [] claim9_cx_record "FS" "plain message").2.2.2.2.2.2
      (by decide)⟩

/-! ### Worksheet-append lemmas -/

theorem max_r_foldl_ge (rows : List Xml) (m : Int) :
    m ≤ rows.foldl
        (fun a r =>
          match parse_row_index r with
          | some rr => if a < rr then rr else a
          | none => a) m := by
  induction rows generalizing m with
  | nil => exact le_refl m
  | cons r rest ih =>
    rw [List.foldl_cons]
    refine le_trans ?_ (ih _)
    cases hpr : parse_row_index r with
    | none => simp [hpr]
    | some rr =>
      simp only [hpr]
      split <;> omega

theorem max_r_fold_nonneg (rows : List Xml) : 0 ≤ max_r_fold rows :=
  max_r_foldl_ge rows 0

theorem le_max_r_foldl (r : Xml) (v : Int) (hv : parse_row_index r = some v) :
    ∀ (rows : List Xml) (m : Int), r ∈ rows →
      v ≤ rows.foldl
          (fun a r =>
            match parse_row_index r with
            | some rr => if a < rr then rr else a
            | none => a) m := by
  intro rows
  induction rows with
  | nil =>
    intro m hr
    cases hr
  | cons x rest ih =>
    intro m hr
    rw [List.foldl_cons]
    rcases List.mem_cons.mp hr with rfl | hr2
    · refine le_trans ?_ (max_r_foldl_ge rest _)
      simp only [hv]
      split <;> omega
    · exact ih _ hr2

theorem parse_le_max_r (rows : List Xml) (r : Xml) (hr : r ∈ rows) (v : Int)
    (hv : parse_row_index r = some v) : v ≤ max_r_fold rows :=
  le_max_r_foldl r v hv rows 0 hr

theorem build_row_elems_length (start : Int) (l : List (List PyValue)) :
    (build_row_elems start l).length = l.length := by
  induction l generalizing start with
  | nil => rfl
  | cons v rest ih => simp [build_row_elems, ih]

theorem build_row_elem_rAttr (i : Int) (v : List PyValue) :
    xmlGetAttr (build_row_elem i v) "r" = some (toString i) := rfl

theorem build_row_elems_rAttrs (start : Int) (l : List (List PyValue)) :
    (build_row_elems start l).map (fun r => xmlGetAttr r "r")
      = (List.range l.length).map (fun i : Nat => some (toString (start + (i : Int)))) := by
  induction l generalizing start with
  | nil => rfl
  | cons v rest ih =>
    simp only [build_row_elems, List.map_cons, List.length_cons, List.range_succ_eq_map,
      List.map_map]
    refine congrArg₂ List.cons ?_ ?_
    · rw [build_row_elem_rAttr]
      norm_num
    · rw [ih (start + 1)]
      apply List.map_congr_left
      intro i _
      simp only [Function.comp]
      congr 2
      push_cast
      ring

theorem replaceFirstAux_find (tag : String) (f : Xml → Xml) (cs : List Xml) (sd : Xml)
    (hfind : cs.find? (fun c => c.tag == tag) = some sd)
    (hftag : (f sd).tag = sd.tag) :
    (replaceFirstAux tag f cs).find? (fun c => c.tag == tag) = some (f sd) := by
  induction cs with
  | nil => simp at hfind
  | cons c rest ih =>
    by_cases h : (c.tag == tag) = true
    · rw [@List.find?_cons_of_pos _ (fun c => c.tag == tag) c rest h] at hfind
      injection hfind with h2
      subst h2
      simp only [replaceFirstAux, if_pos h]
      have hft : ((f c).tag == tag) = true := by
        rw [hftag]
        exact h
      rw [@List.find?_cons_of_pos _ (fun c => c.tag == tag) (f c) rest hft]
    · rw [@List.find?_cons_of_neg _ (fun c => c.tag == tag) c rest h] at hfind
      simp only [replaceFirstAux, if_neg h]
      rw [@List.find?_cons_of_neg _ (fun c => c.tag == tag) c (replaceFirstAux tag f rest) h]
      exact ih hfind

theorem xmlFind_replaceFirstChild (x : Xml) (tag : String) (f : Xml → Xml) (sd : Xml)
    (hfind : xmlFind x tag = some sd) (hftag : (f sd).tag = sd.tag) :
    xmlFind (replaceFirstChild x tag f) tag = some (f sd) := by
  unfold xmlFind at hfind ⊢
  unfold replaceFirstChild
  simp only [Xml.children]
  exact replaceFirstAux_find tag f x.children sd hfind hftag

theorem append_rows_to_sheet_eq (root sd : Xml) (rows_data : List (List PyValue))
    (hsd : xmlFind root sheetDataTag = some sd) :
    append_rows_to_sheet root rows_data
      = Except.ok (replaceFirstChild root sheetDataTag (fun s =>
          Xml.elem s.tag s.attrs s.text
            (s.children
              ++ build_row_elems (max_r_fold (existing_rows sd) + 1) rows_data))) := by
  have h1 : (if max_r_fold (existing_rows sd) = 0 then (1 : Int)
      else max_r_fold (existing_rows sd) + 1) = max_r_fold (existing_rows sd) + 1 := by
    by_cases h : max_r_fold (existing_rows sd) = 0
    · rw [if_pos h, h]
      omega
    · rw [if_neg h]
  simp only [append_rows_to_sheet, hsd]
  rw [h1]

/-! ### Claim C1 -/

/-- C1: for every template worksheet (with a located row container) and every
non-empty export row list, the append step adds exactly one row element per
export row, after all pre-existing children; the appended row indices are the
consecutive integers `max + 1, max + 2, …` where `max` is the highest
parseable existing row index (an upper bound of every parseable index, and 0
when the sheet has no rows, so the first appended row is numbered 1). -/
theorem claim1_row_append (root sd root2 : Xml) (rows_data : List (List PyValue))
    (hsd : xmlFind root sheetDataTag = some sd)
    (_hne : rows_data ≠ [])
    (hok : append_rows_to_sheet root rows_data = Except.ok root2) :
    xmlFind root2 sheetDataTag
        = some (Xml.elem sd.tag sd.attrs sd.text
            (sd.children
              ++ build_row_elems (max_r_fold (existing_rows sd) + 1) rows_data)) ∧
      (build_row_elems (max_r_fold (existing_rows sd) + 1) rows_data).length
        = rows_data.length ∧
      (build_row_elems (max_r_fold (existing_rows sd) + 1) rows_data).map
          (fun r => xmlGetAttr r "r")
        = (List.range rows_data.length).map
            (fun i : Nat => some (toString (max_r_fold (existing_rows sd) + 1 + (i : Int)))) ∧
      0 ≤ max_r_fold (existing_rows sd) ∧
      (∀ r ∈ existing_rows sd, ∀ v, parse_row_index r = some v
        → v ≤ max_r_fold (existing_rows sd)) ∧
      (existing_rows sd = [] → max_r_fold (existing_rows sd) = 0) := by
  have heq := append_rows_to_sheet_eq root sd rows_data hsd
  rw [hok] at heq
  have hroot2 := Except.ok.inj heq
  subst hroot2
  refine ⟨?_, build_row_elems_length _ _, ?_, max_r_fold_nonneg _, ?_, ?_⟩
  · exact xmlFind_replaceFirstChild root sheetDataTag _ sd hsd rfl
  · exact build_row_elems_rAttrs _ _
  · intro r hr v hv
    exact parse_le_max_r _ r hr v hv
  · intro h0
    rw [h0]
    rfl

/-- Witness for C1: appending the three export rows of the spec's scenario
(one empty-breakdown record plus one two-bucket record) to a template whose
worksheet holds rows 1 and 2 yields new rows indexed exactly 3, 4, 5. -/
theorem claim1_row_append_witness :
    (build_row_elems (max_r_fold (existing_rows wSheetData) + 1) wRowsData).map
        (fun r => xmlGetAttr r "r") = [some "3", some "4", some "5"] := by
  have h := (claim1_row_append wTemplateRoot wSheetData wRoot2 wRowsData rfl
      (by decide) rfl).2.2.1
  rw [h]
  rfl

/-! ### Claim C7 -/

/-- C7: the output archive contains every part of the source archive in
order — parts other than `xl/worksheets/sheet1.xml` with content identical to
the input, and exactly the worksheet part with its content replaced — and in
the rewritten worksheet tree every pre-existing child of the row container is
preserved unchanged, in place, before the appended rows. -/
theorem claim7_archive_frame {α : Type} (zin : List (String × α)) (new_sheet : α)
    (root sd root2 : Xml) (rows_data : List (List PyValue))
    (hsd : xmlFind root sheetDataTag = some sd)
    (hok : append_rows_to_sheet root rows_data = Except.ok root2) :
    ((write_output_archive zin new_sheet).map (fun item => item.1)
        = zin.map (fun item => item.1)) ∧
      ((write_output_archive zin new_sheet).filter
          (fun item => !(item.1 == "xl/worksheets/sheet1.xml"))
        = zin.filter (fun item => !(item.1 == "xl/worksheets/sheet1.xml"))) ∧
      ((write_output_archive zin new_sheet).filter
          (fun item => item.1 == "xl/worksheets/sheet1.xml")
        = (zin.filter (fun item => item.1 == "xl/worksheets/sheet1.xml")).map
            (fun item => (item.1, new_sheet))) ∧
      xmlFind root2 sheetDataTag
        = some (Xml.elem sd.tag sd.attrs sd.text
            (sd.children
              ++ build_row_elems (max_r_fold (existing_rows sd) + 1) rows_data)) := by
  refine ⟨?_, ?_, ?_, ?_⟩
  · simp only [write_output_archive, List.map_map]
    apply List.map_congr_left
    intro item _
    by_cases h : (item.1 == "xl/worksheets/sheet1.xml") = true <;>
      simp [Function.comp, h]
  · induction zin with
    | nil => rfl
    | cons item rest ih =>
      by_cases h : item.1 = "xl/worksheets/sheet1.xml"
      · simp [write_output_archive, List.filter_cons, h] at ih ⊢
        exact ih
      · simp [write_output_archive, List.filter_cons, h] at ih ⊢
        exact ih
  · induction zin with
    | nil => rfl
    | cons item rest ih =>
      by_cases h : item.1 = "xl/worksheets/sheet1.xml"
      · simp [write_output_archive, List.filter_cons, h] at ih ⊢
        exact ih
      · simp [write_output_archive, List.filter_cons, h] at ih ⊢
        exact ih
  · have heq := append_rows_to_sheet_eq root sd rows_data hsd
    rw [hok] at heq
    have hroot2 := Except.ok.inj heq
    subst hroot2
    exact xmlFind_replaceFirstChild root sheetDataTag _ sd hsd rfl

/-- Witness for C7: on a concrete three-part archive the two non-worksheet
parts are copied with identical content and only the worksheet part content
is replaced. -/
theorem claim7_archive_frame_witness :
    (write_output_archive wParts 99).filter
        (fun item => !(item.1 == "xl/worksheets/sheet1.xml"))
      = wParts.filter (fun item => !(item.1 == "xl/worksheets/sheet1.xml")) ∧
      (write_output_archive wParts 99).filter
          (fun item => item.1 == "xl/worksheets/sheet1.xml")
        = (wParts.filter (fun item => item.1 == "xl/worksheets/sheet1.xml")).map
            (fun item => (item.1, 99)) :=
  ⟨(claim7_archive_frame wParts 99 wTemplateRoot wSheetData wRoot2 wRowsData rfl rfl).2.1,
    (claim7_archive_frame wParts 99 wTemplateRoot wSheetData wRoot2
        wRowsData rfl rfl).2.2.1⟩

/-! ### Claim C8 -/

/-- C8: if the export row set built from the Stats Records is empty,
`export_stats_to_excel` raises a `ValueError` (an error, not a silent no-op)
and no output document is produced; the failure happens before the template
is opened, so the result is the same for every template. -/
theorem claim8_empty_export (all_stats : List StatsRecord) (fs : String)
    (h : build_excel_rows all_stats fs = []) :
    (∀ template : Xml, export_stats_to_excel template all_stats fs
        = Except.error "Aucune donnée à écrire dans le fichier Excel.") ∧
      ∀ t1 t2 : Xml, export_stats_to_excel t1 all_stats fs
        = export_stats_to_excel t2 all_stats fs := by
  have herr : ∀ template : Xml, export_stats_to_excel template all_stats fs
      = Except.error "Aucune donnée à écrire dans le fichier Excel." := by
    intro template
    simp [export_stats_to_excel, h]
  exact ⟨herr, fun t1 t2 => (herr t1).trans (herr t2).symm⟩

/-- Witness for C8: with no Stats Records the row set is empty and the export
fails with the source's `ValueError` message, template notwithstanding. -/
theorem claim8_empty_export_witness :
    export_stats_to_excel wTemplateRoot [] "FS"
      = Except.error "Aucune donnée à écrire dans le fichier Excel." :=
  (claim8_empty_export [] "FS" rfl).1 wTemplateRoot

end FsadaStats
